import Mathlib

/-!
Shallow embedding of the force-directed trait-visualization simulation
(`src/app/objects/Node.ts`, `src/app/services/node-actions.ts`,
`src/app/app.component.ts`) and proofs about its force model, integration
step, swap animation, sun handoff and node removal.

Vectors are modelled over ℝ following THREE.Vector3 semantics:
`normalize` divides by `length || 1`, `setLength l = normalize * l`,
`lerp` is unclamped.
-/

namespace TraitVisual

/-- THREE.Vector3, embedded componentwise over ℝ. -/
@[ext]
structure Vec3 where
  x : ℝ
  y : ℝ
  z : ℝ

namespace Vec3

/-- `new THREE.Vector3()` — the zero vector. -/
def zero : Vec3 := ⟨0, 0, 0⟩

/-- `Vector3.add`. -/
def add (a b : Vec3) : Vec3 := ⟨a.x + b.x, a.y + b.y, a.z + b.z⟩

/-- `new THREE.Vector3().subVectors(a, b)`. -/
def subVectors (a b : Vec3) : Vec3 := ⟨a.x - b.x, a.y - b.y, a.z - b.z⟩

/-- `Vector3.multiplyScalar`. -/
def multiplyScalar (a : Vec3) (s : ℝ) : Vec3 := ⟨a.x * s, a.y * s, a.z * s⟩

/-- `Vector3.length`: `sqrt(x² + y² + z²)`. -/
noncomputable def length (a : Vec3) : ℝ := Real.sqrt (a.x ^ 2 + a.y ^ 2 + a.z ^ 2)

/-- `Vector3.distanceTo`: `sqrt((x−vx)² + (y−vy)² + (z−vz)²)`. -/
noncomputable def distanceTo (a b : Vec3) : ℝ :=
  Real.sqrt ((a.x - b.x) ^ 2 + (a.y - b.y) ^ 2 + (a.z - b.z) ^ 2)

/-- `Vector3.divideScalar(s)` is `multiplyScalar(1 / s)`. -/
noncomputable def divideScalar (a : Vec3) (s : ℝ) : Vec3 := a.multiplyScalar (1 / s)

/-- `Vector3.normalize`: `divideScalar(length || 1)` (zero vector stays zero). -/
noncomputable def normalize (a : Vec3) : Vec3 :=
  a.divideScalar (if a.length = 0 then 1 else a.length)

/-- `Vector3.setLength(l)`: `normalize().multiplyScalar(l)`. -/
noncomputable def setLength (a : Vec3) (l : ℝ) : Vec3 := a.normalize.multiplyScalar l

/-- `Vector3.lerp(v, t)`: componentwise `x + (v.x − x) * t`, unclamped. -/
def lerp (a b : Vec3) (t : ℝ) : Vec3 :=
  ⟨a.x + (b.x - a.x) * t, a.y + (b.y - a.y) * t, a.z + (b.z - a.z) * t⟩

end Vec3

/-- Sum of a list of vectors (used to state what the force folds compute). -/
def vecListSum : List Vec3 → Vec3
  | [] => Vec3.zero
  | v :: vs => v.add (vecListSum vs)

/-- `ISwapAnimation` from `app.types.ts`; the field `end` is named `endP`
because `end` is a Lean keyword. -/
structure ISwapAnimation where
  start : Vec3
  endP : Vec3
  startTime : ℝ
  duration : ℝ

/-- `ISunConfigs` from `app.types.ts`. -/
structure ISunConfigs where
  attraction : ℝ
  repulsion : ℝ
  repulsionInitializationThreshold : ℝ

/-- `IPlanetConfigs` from `app.types.ts`. -/
structure IPlanetConfigs where
  attraction : ℝ
  repulsion : ℝ
  repulsionInitializationThreshold : ℝ

/-- `ISimulationConfigs` from `app.types.ts`. -/
structure ISimulationConfigs where
  sun : ISunConfigs
  planet : IPlanetConfigs
  maxVelocity : ℝ
  velocityDamping : ℝ
  minAttributeValue : ℝ
  minPreferenceValue : ℝ
  maxAttributeValue : ℝ
  maxPreferenceValue : ℝ

/-- The simulation-relevant state of a `Node` (`Node.ts`): rendering fields
(mesh, halo, sprites) are presentational and omitted. -/
structure Node where
  options : ISimulationConfigs
  position : Vec3
  velocity : Vec3
  isSun : Bool
  attributes : List ℝ
  preferences : List ℝ
  preference : ℝ
  swap : Option ISwapAnimation

/-- The summed absolute componentwise difference computed by the index loops
in `calculatePreferredCompatibility` / `calculateAttributeCompatibility`
(the loops pair entries positionally; vectors are same-length by the data
model, §3 of the design). -/
def diffSum : List ℝ → List ℝ → ℝ
  | p :: ps, a :: as => |p - a| + diffSum ps as
  | _, _ => 0

namespace Node

/-- `Node.calculatePreferredCompatibility(sun)`:
`1 - Σ|sun.preferences[i] - this.attributes[i]| / (sun.preferences.length * 100)`. -/
noncomputable def calculatePreferredCompatibility (self sun : Node) : ℝ :=
  1 - diffSum sun.preferences self.attributes / ((sun.preferences.length : ℝ) * 100)

/-- `Node.calculateAttributeCompatibility(other)`:
`1 - Σ|this.attributes[i] - other.attributes[i]| / (this.attributes.length * 100)`. -/
noncomputable def calculateAttributeCompatibility (self other : Node) : ℝ :=
  1 - diffSum self.attributes other.attributes / ((self.attributes.length : ℝ) * 100)

/-- `Node.setSun(state, preference?)` — the physics-relevant effect: sets
`isSun`, and sets `preference` when one is supplied (material/scale changes
are presentational and omitted). -/
def setSun (self : Node) (state : Bool) (preference : Option ℝ) : Node :=
  match preference with
  | some p => { self with isSun := state, preference := p }
  | none => { self with isSun := state }

/-- `Node.calculateSunForce(sun)` (Node.ts lines 181–204). -/
noncomputable def calculateSunForce (self sun : Node) : Vec3 :=
  let force := Vec3.zero
  let compatibility := self.calculatePreferredCompatibility sun
  let desiredDistance := 1 + (1 - compatibility) * 3
  let currentDistance := sun.position.distanceTo self.position
  let error := currentDistance - desiredDistance
  let directionToSun := (Vec3.subVectors sun.position self.position).normalize
  if currentDistance < desiredDistance then
    force.add (directionToSun.multiplyScalar
      (-self.options.sun.repulsion * (desiredDistance - currentDistance) * compatibility))
  else
    force.add (directionToSun.multiplyScalar
      (2 * self.options.sun.attraction * error * compatibility + 0.001))

/-- `Node.calculatePlanetAttraction(nodes)` (Node.ts lines 206–220).
JavaScript's reference identity `other !== this` is modelled by pairing every
node with its index (`List.enum`) and comparing against `selfIdx`, the index
of `self` in the cluster's node list. -/
noncomputable def calculatePlanetAttraction (self : Node) (selfIdx : ℕ) (nodes : List Node) :
    Vec3 :=
  let attractionConstant : ℝ := 0.001
  nodes.enum.foldl (fun acc other =>
    if other.1 ≠ selfIdx ∧ other.2.isSun = false then
      let compatibility := self.calculateAttributeCompatibility other.2
      let forceMagnitude := attractionConstant * compatibility - 0.001
      let attractionDirection := (Vec3.subVectors other.2.position self.position).normalize
      acc.add (attractionDirection.multiplyScalar forceMagnitude)
    else acc) Vec3.zero

/-- `Node.calculatePlanetRepulsion(nodes)` (Node.ts lines 222–243), with the
same index-based treatment of reference identity. -/
noncomputable def calculatePlanetRepulsion (self : Node) (selfIdx : ℕ) (nodes : List Node) :
    Vec3 :=
  nodes.enum.foldl (fun acc other =>
    if other.1 ≠ selfIdx ∧ other.2.isSun = false then
      let distance := self.position.distanceTo other.2.position
      if distance < self.options.planet.repulsionInitializationThreshold then
        let compatibility := self.calculateAttributeCompatibility other.2
        let repulsion := self.options.planet.repulsion *
            (self.options.planet.repulsionInitializationThreshold - distance) *
            (1 - compatibility) + 0.001
        let repulsionDirection := (Vec3.subVectors self.position other.2.position).normalize
        acc.add (repulsionDirection.multiplyScalar repulsion)
      else acc
    else acc) Vec3.zero

/-- `Node.handleSwapAnimation()` (Node.ts lines 323–336); `performance.now()`
is passed explicitly as `now`. -/
noncomputable def handleSwapAnimation (self : Node) (now : ℝ) : Node :=
  match self.swap with
  | none => self
  | some currentSwap =>
    let progress := (now - currentSwap.startTime) / currentSwap.duration
    if progress ≥ 1 then
      { self with velocity := ⟨0, 0, 0⟩, swap := none,
                  position := currentSwap.start.lerp currentSwap.endP 1 }
    else
      { self with position := currentSwap.start.lerp currentSwap.endP progress }

/-- `Node.applyForces(force)` (Node.ts lines 312–319). -/
noncomputable def applyForces (self : Node) (force : Vec3) : Node :=
  let velocity1 := self.velocity.add force
  let velocity2 :=
    if velocity1.length > self.options.maxVelocity then
      velocity1.setLength self.options.maxVelocity
    else velocity1
  let velocity3 := velocity2.multiplyScalar self.options.velocityDamping
  { self with velocity := velocity3, position := self.position.add velocity3 }

/-- `Node.update(nodes)` (Node.ts lines 245–310), restricted to its
simulation-relevant effect on position/velocity/swap: swapping nodes advance
the swap animation and return; the sun only updates presentational pulse
state (no physics), so its simulation state is unchanged; planets sum
sun force, peer repulsion and peer attraction, damp the sum and integrate. -/
noncomputable def update (self : Node) (selfIdx : ℕ) (nodes : List Node) (now : ℝ) : Node :=
  if self.swap.isSome then self.handleSwapAnimation now
  else if self.isSun then self
  else
    let totalForce0 := Vec3.zero
    let totalForce1 :=
      match nodes.find? (fun n => n.isSun) with
      | some sun => totalForce0.add (self.calculateSunForce sun)
      | none => totalForce0
    let totalForce2 := totalForce1.add (self.calculatePlanetRepulsion selfIdx nodes)
    let totalForce3 := totalForce2.add (self.calculatePlanetAttraction selfIdx nodes)
    self.applyForces (totalForce3.multiplyScalar self.options.velocityDamping)

end Node

/-- `onSetAsSun` (app.component.ts lines 183–207), on the cluster's node
list; the selected node and the current sun are identified by index (the
model of JavaScript reference identity), `performance.now()` is `now`.
Presentational mutations (mesh scale, context-menu hiding) are omitted. -/
noncomputable def onSetAsSun (nodes : List Node) (selectedNode : Option ℕ) (now : ℝ) :
    List Node :=
  match selectedNode with
  | none => nodes
  | some i =>
    match nodes[i]? with
    | none => nodes
    | some newCentral =>
      match nodes.findIdx? (fun n => n.isSun) with
      | none => nodes
      | some j =>
        match nodes[j]? with
        | none => nodes
        | some oldCentral =>
          if i = j then nodes
          else
            let newPosition := newCentral.position
            let oldPosition := oldCentral.position
            let newCentral1 :=
              ({ newCentral with
                  swap := some ⟨newPosition, ⟨0, 0, 0⟩, now, 5000⟩ }).setSun true (some 5)
            let oldCentral1 :=
              ({ oldCentral with
                  swap := some ⟨oldPosition, newPosition, now, 5000⟩ }).setSun false none
            (nodes.set i newCentral1).set j oldCentral1

/-- `removeNode` (node-actions.ts lines 66–80) / `onRemoveNode`
(app.component.ts lines 394–403): no-op when nothing is selected or the
selected node is the sun; otherwise the selected node is spliced out of the
cluster's live list. The selected node is identified by its index (the model
of the `indexOf` reference lookup). -/
def removeNode (nodes : List Node) (selectedNode : Option ℕ) : List Node :=
  match selectedNode with
  | none => nodes
  | some i =>
    match nodes[i]? with
    | none => nodes
    | some selected => if selected.isSun then nodes else nodes.eraseIdx i

/-- Number of suns in a node list. -/
def countSuns (nodes : List Node) : ℕ := nodes.countP (fun n => n.isSun)

/-! ### Concrete instances (used by the witnesses below) -/

/-- The simulation configuration used by the repository's test harness
(`drag-sphere.component.spec.ts`). -/
def defaultConfigs : ISimulationConfigs :=
  ⟨⟨1, 1, 0.8⟩, ⟨1, 1, 0.4⟩, 0.02, 0.8, 0, 0, 100, 100⟩

/-- A concrete planet one unit from the origin whose attributes match
`sunA`'s preferences exactly. -/
def planetA : Node :=
  { options := defaultConfigs, position := ⟨1, 0, 0⟩, velocity := ⟨0, 0, 0⟩,
    isSun := false, attributes := [50, 50, 50], preferences := [0, 0, 0],
    preference := 0, swap := none }

/-- A concrete sun at the origin. -/
def sunA : Node :=
  { options := defaultConfigs, position := ⟨0, 0, 0⟩, velocity := ⟨0, 0, 0⟩,
    isSun := true, attributes := [50, 50, 50], preferences := [50, 50, 50],
    preference := 5, swap := none }

/-- A planet with a single attribute 0 and preference 50. -/
def planetP : Node :=
  { options := defaultConfigs, position := ⟨0, 0, 0⟩, velocity := ⟨0, 0, 0⟩,
    isSun := false, attributes := [0], preferences := [50],
    preference := 0, swap := none }

/-- A planet with a single attribute 100. -/
def planetQ : Node :=
  { options := defaultConfigs, position := ⟨2, 0, 0⟩, velocity := ⟨0, 0, 0⟩,
    isSun := false, attributes := [100], preferences := [0],
    preference := 0, swap := none }

/-- A sun whose single preference is 100, with a single attribute 0. -/
def sunP : Node :=
  { options := defaultConfigs, position := ⟨0, 0, 0⟩, velocity := ⟨0, 0, 0⟩,
    isSun := true, attributes := [0], preferences := [100],
    preference := 5, swap := none }

/-- A concrete swap animation starting at time 1000 with duration 5000. -/
def swapW : ISwapAnimation := ⟨⟨1, 2, 3⟩, ⟨4, 5, 6⟩, 1000, 5000⟩

/-- A node currently playing `swapW`. -/
def swappingNode : Node :=
  { options := defaultConfigs, position := ⟨1, 2, 3⟩, velocity := ⟨1, 0, 0⟩,
    isSun := false, attributes := [50], preferences := [50],
    preference := 0, swap := some swapW }

/-! ### Vec3 lemmas -/

theorem Vec3.zero_add (v : Vec3) : Vec3.zero.add v = v := by
  ext <;> simp [Vec3.add, Vec3.zero]

theorem Vec3.add_zero (v : Vec3) : v.add Vec3.zero = v := by
  ext <;> simp [Vec3.add, Vec3.zero]

theorem Vec3.add_assoc (a b c : Vec3) : (a.add b).add c = a.add (b.add c) := by
  ext <;> simp [Vec3.add] <;> ring

theorem Vec3.multiplyScalar_multiplyScalar (v : Vec3) (a b : ℝ) :
    (v.multiplyScalar a).multiplyScalar b = v.multiplyScalar (a * b) := by
  ext <;> simp [Vec3.multiplyScalar] <;> ring

theorem Vec3.length_nonneg (v : Vec3) : 0 ≤ v.length := Real.sqrt_nonneg _

theorem Vec3.distanceTo_eq (a b : Vec3) : a.distanceTo b = (Vec3.subVectors a b).length := rfl

theorem Vec3.length_multiplyScalar (v : Vec3) (s : ℝ) :
    (v.multiplyScalar s).length = |s| * v.length := by
  unfold Vec3.length Vec3.multiplyScalar
  rw [show (v.x * s) ^ 2 + (v.y * s) ^ 2 + (v.z * s) ^ 2
      = s ^ 2 * (v.x ^ 2 + v.y ^ 2 + v.z ^ 2) by ring]
  rw [Real.sqrt_mul (sq_nonneg s), Real.sqrt_sq_eq_abs]

theorem Vec3.normalize_of_length_ne_zero {v : Vec3} (h : v.length ≠ 0) :
    v.normalize = v.multiplyScalar (1 / v.length) := by
  unfold Vec3.normalize Vec3.divideScalar
  rw [if_neg h]

theorem Vec3.length_pos_of_ne_zero {v : Vec3} (h : v.length ≠ 0) : 0 < v.length :=
  lt_of_le_of_ne (Vec3.length_nonneg v) (Ne.symm h)

theorem Vec3.length_normalize {v : Vec3} (h : v.length ≠ 0) : v.normalize.length = 1 := by
  have hpos : 0 < v.length := Vec3.length_pos_of_ne_zero h
  rw [Vec3.normalize_of_length_ne_zero h, Vec3.length_multiplyScalar,
    abs_of_pos (one_div_pos.mpr hpos)]
  field_simp

theorem Vec3.length_setLength {v : Vec3} (h : v.length ≠ 0) (l : ℝ) :
    (v.setLength l).length = |l| := by
  unfold Vec3.setLength
  rw [Vec3.length_multiplyScalar, Vec3.length_normalize h, mul_one]

theorem Vec3.lerp_zero (a b : Vec3) : a.lerp b 0 = a := by
  ext <;> simp [Vec3.lerp]

theorem Vec3.lerp_one (a b : Vec3) : a.lerp b 1 = b := by
  ext <;> simp [Vec3.lerp]

/-! ### diffSum lemmas -/

theorem diffSum_comm : ∀ xs ys : List ℝ, diffSum xs ys = diffSum ys xs
  | [], [] => rfl
  | [], _ :: _ => rfl
  | _ :: _, [] => rfl
  | x :: xs, y :: ys => by
      show |x - y| + diffSum xs ys = |y - x| + diffSum ys xs
      rw [abs_sub_comm, diffSum_comm xs ys]

theorem diffSum_nonneg : ∀ xs ys : List ℝ, 0 ≤ diffSum xs ys
  | [], [] => le_refl 0
  | [], _ :: _ => le_refl 0
  | _ :: _, [] => le_refl 0
  | x :: xs, y :: ys =>
      add_nonneg (abs_nonneg _) (diffSum_nonneg xs ys)

theorem diffSum_le : ∀ xs ys : List ℝ, xs.length = ys.length →
    (∀ x ∈ xs, 0 ≤ x ∧ x ≤ 100) → (∀ y ∈ ys, 0 ≤ y ∧ y ≤ 100) →
    diffSum xs ys ≤ xs.length * 100
  | [], [], _, _, _ => by simp [diffSum]
  | [], _ :: _, h, _, _ => by simp at h
  | _ :: _, [], h, _, _ => by simp at h
  | x :: xs, y :: ys, h, hx, hy => by
      have hx0 := hx x (List.mem_cons_self x xs)
      have hy0 := hy y (List.mem_cons_self y ys)
      have ih := diffSum_le xs ys (by simpa using h)
        (fun a ha => hx a (List.mem_cons_of_mem x ha))
        (fun a ha => hy a (List.mem_cons_of_mem y ha))
      have habs : |x - y| ≤ 100 := by
        rw [abs_sub_le_iff]; constructor <;> linarith [hx0.1, hx0.2, hy0.1, hy0.2]
      show |x - y| + diffSum xs ys ≤ (xs.length + 1 : ℕ) * 100
      push_cast
      linarith

theorem diffSum_eq_finsetSum : ∀ xs ys : List ℝ, xs.length = ys.length →
    diffSum xs ys = ∑ k ∈ Finset.range xs.length, |xs.getD k 0 - ys.getD k 0|
  | [], [], _ => by simp [diffSum]
  | [], _ :: _, h => by simp at h
  | _ :: _, [], h => by simp at h
  | x :: xs, y :: ys, h => by
      have ih := diffSum_eq_finsetSum xs ys (by simpa using h)
      show |x - y| + diffSum xs ys = _
      rw [List.length_cons, Finset.sum_range_succ']
      simp only [List.getD_cons_succ, List.getD_cons_zero]
      rw [← ih]
      ring

theorem vecListSum_nil : vecListSum [] = Vec3.zero := rfl

theorem vecListSum_cons (v : Vec3) (vs : List Vec3) :
    vecListSum (v :: vs) = v.add (vecListSum vs) := rfl

/-- The fold inside `calculatePlanetAttraction`, computed in closed form:
starting from `acc` it adds one attraction vector per enumerated entry that
is neither `self` (index `i`) nor a sun. -/
theorem planetAttraction_foldl (b : Node) (i : ℕ) :
    ∀ (l : List (ℕ × Node)) (acc : Vec3),
      l.foldl (fun acc other =>
          if other.1 ≠ i ∧ other.2.isSun = false then
            acc.add ((Vec3.subVectors other.2.position b.position).normalize.multiplyScalar
              (0.001 * b.calculateAttributeCompatibility other.2 - 0.001))
          else acc) acc
        = acc.add (vecListSum
            ((l.filter fun o => decide (o.1 ≠ i ∧ o.2.isSun = false)).map
              fun o => (Vec3.subVectors o.2.position b.position).normalize.multiplyScalar
                (0.001 * b.calculateAttributeCompatibility o.2 - 0.001)))
  | [], acc => by simp [vecListSum, Vec3.add_zero]
  | o :: t, acc => by
      rw [List.foldl_cons, List.filter_cons]
      by_cases h : o.1 ≠ i ∧ o.2.isSun = false
      · rw [if_pos h, planetAttraction_foldl b i t, if_pos (decide_eq_true h),
          List.map_cons, vecListSum_cons, Vec3.add_assoc]
      · rw [if_neg h, planetAttraction_foldl b i t, if_neg (by simpa using h)]

/-- C6: `attributeCompatibility` is commutative for same-length attribute
vectors. -/
theorem attributeCompatibility_comm (a b : Node)
    (h : a.attributes.length = b.attributes.length) :
    a.calculateAttributeCompatibility b = b.calculateAttributeCompatibility a := by
  unfold Node.calculateAttributeCompatibility
  rw [diffSum_comm, h]

/-- Witness for C6 at the concrete planets `planetP`, `planetQ`. -/
theorem attributeCompatibility_comm_witness :
    planetP.attributes.length = planetQ.attributes.length ∧
    planetP.calculateAttributeCompatibility planetQ
      = planetQ.calculateAttributeCompatibility planetP :=
  ⟨rfl, attributeCompatibility_comm planetP planetQ rfl⟩

/-- C5: for same-length vectors with components in `[0,100]`,
`preferredCompatibility(body, sun)` equals
`1 - (Σ|sun.preferences[i] - body.attributes[i]|) / (N * 100)`, the result
lies in `[0,1]`, and the operation is not commutative (it always compares
the sun's preferences against the body's attributes): at the concrete pair
`planetP`/`sunP` swapping the arguments changes the result. -/
theorem preferredCompatibility_spec (b s : Node) (N : ℕ) (hpos : 0 < N)
    (hbN : b.attributes.length = N) (hsN : s.preferences.length = N)
    (hb : ∀ x ∈ b.attributes, 0 ≤ x ∧ x ≤ 100)
    (hs : ∀ x ∈ s.preferences, 0 ≤ x ∧ x ≤ 100) :
    b.calculatePreferredCompatibility s
      = 1 - (∑ k ∈ Finset.range N, |s.preferences.getD k 0 - b.attributes.getD k 0|)
          / ((N : ℝ) * 100) ∧
    0 ≤ b.calculatePreferredCompatibility s ∧
    b.calculatePreferredCompatibility s ≤ 1 ∧
    planetP.calculatePreferredCompatibility sunP
      ≠ sunP.calculatePreferredCompatibility planetP := by
  have hlen : s.preferences.length = b.attributes.length := by rw [hbN, hsN]
  have hsum := diffSum_eq_finsetSum s.preferences b.attributes hlen
  have hle := diffSum_le s.preferences b.attributes hlen hs hb
  have hnn := diffSum_nonneg s.preferences b.attributes
  have hNpos : (0:ℝ) < (N : ℝ) * 100 :=
    mul_pos (by exact_mod_cast hpos) (by norm_num)
  refine ⟨?_, ?_, ?_, ?_⟩
  · unfold Node.calculatePreferredCompatibility
    rw [hsum, hsN]
  · unfold Node.calculatePreferredCompatibility
    rw [hsN] at hle ⊢
    rw [sub_nonneg]
    exact (div_le_one hNpos).mpr hle
  · unfold Node.calculatePreferredCompatibility
    rw [hsN]
    exact sub_le_self _ (div_nonneg hnn hNpos.le)
  · norm_num [Node.calculatePreferredCompatibility, diffSum, planetP, sunP,
      abs_of_nonneg]

/-- Witness for C5 at `planetA` (attributes `[50,50,50]`) and `sunA`
(preferences `[50,50,50]`). -/
theorem preferredCompatibility_spec_witness :
    planetA.attributes.length = 3 ∧ sunA.preferences.length = 3 ∧
    (planetA.calculatePreferredCompatibility sunA
      = 1 - (∑ k ∈ Finset.range 3, |sunA.preferences.getD k 0 - planetA.attributes.getD k 0|)
          / (((3:ℕ) : ℝ) * 100) ∧
    0 ≤ planetA.calculatePreferredCompatibility sunA ∧
    planetA.calculatePreferredCompatibility sunA ≤ 1 ∧
    planetP.calculatePreferredCompatibility sunP
      ≠ sunP.calculatePreferredCompatibility planetP) := by
  refine ⟨rfl, rfl, preferredCompatibility_spec planetA sunA 3 (by norm_num) rfl rfl ?_ ?_⟩
  · intro x hx
    simp only [planetA, List.mem_cons, List.not_mem_nil, or_false] at hx
    rcases hx with h | h | h <;> subst h <;> norm_num
  · intro x hx
    simp only [sunA, List.mem_cons, List.not_mem_nil, or_false] at hx
    rcases hx with h | h | h <;> subst h <;> norm_num

/-- C1: the sun force on a non-sun body `b` is directed along
`normalize(s.position − b.position)` with magnitude
`−sunRepulsion·(desiredDistance − d)·c` when `d < desiredDistance` and
`2·sunAttraction·(d − desiredDistance)·c + 0.001` otherwise, where
`desiredDistance = 1 + (1 − c)·3` lies in `[1,4]` for `c ∈ [0,1]`. -/
theorem calculateSunForce_spec (b s : Node) (c d dd : ℝ)
    (hb : b.isSun = false) (hs : s.isSun = true)
    (hc : c = b.calculatePreferredCompatibility s)
    (hd : d = (Vec3.subVectors s.position b.position).length)
    (hdd : dd = 1 + (1 - c) * 3) :
    b.calculateSunForce s =
      (Vec3.subVectors s.position b.position).normalize.multiplyScalar
        (if d < dd then -b.options.sun.repulsion * (dd - d) * c
         else 2 * b.options.sun.attraction * (d - dd) * c + 0.001) ∧
    (0 ≤ c → c ≤ 1 → 1 ≤ dd ∧ dd ≤ 4) := by
  subst hc hd hdd
  constructor
  · simp only [Node.calculateSunForce, Vec3.distanceTo_eq]
    split_ifs with h
    · exact Vec3.zero_add _
    · exact Vec3.zero_add _
  · intro h0 h1
    constructor <;> nlinarith

/-- Witness for C1 at `planetA` and `sunA`. -/
theorem calculateSunForce_spec_witness :
    planetA.isSun = false ∧ sunA.isSun = true ∧
    (planetA.calculateSunForce sunA =
      (Vec3.subVectors sunA.position planetA.position).normalize.multiplyScalar
        (if (Vec3.subVectors sunA.position planetA.position).length <
            1 + (1 - planetA.calculatePreferredCompatibility sunA) * 3 then
          -planetA.options.sun.repulsion *
            ((1 + (1 - planetA.calculatePreferredCompatibility sunA) * 3) -
              (Vec3.subVectors sunA.position planetA.position).length) *
            planetA.calculatePreferredCompatibility sunA
         else
          2 * planetA.options.sun.attraction *
            ((Vec3.subVectors sunA.position planetA.position).length -
              (1 + (1 - planetA.calculatePreferredCompatibility sunA) * 3)) *
            planetA.calculatePreferredCompatibility sunA + 0.001) ∧
    (0 ≤ planetA.calculatePreferredCompatibility sunA →
      planetA.calculatePreferredCompatibility sunA ≤ 1 →
      1 ≤ 1 + (1 - planetA.calculatePreferredCompatibility sunA) * 3 ∧
      1 + (1 - planetA.calculatePreferredCompatibility sunA) * 3 ≤ 4)) :=
  ⟨rfl, rfl, calculateSunForce_spec planetA sunA _ _ _ rfl rfl rfl rfl rfl⟩

/-- C8: at the branch boundary `d = desiredDistance` the "too far" branch
runs with zero error, so the sun force is exactly the constant nudge
`0.001` along the direction to the sun. -/
theorem sunForce_at_desiredDistance (b s : Node)
    (hd : s.position.distanceTo b.position
        = 1 + (1 - b.calculatePreferredCompatibility s) * 3) :
    b.calculateSunForce s =
      (Vec3.subVectors s.position b.position).normalize.multiplyScalar 0.001 := by
  simp only [Node.calculateSunForce]
  rw [hd, if_neg (lt_irrefl _), Vec3.zero_add]
  congr 1
  ring

/-- Witness for C8: `planetA` sits at distance 1 from `sunA`, exactly its
desired distance (compatibility 1). -/
theorem sunForce_at_desiredDistance_witness :
    sunA.position.distanceTo planetA.position
        = 1 + (1 - planetA.calculatePreferredCompatibility sunA) * 3 ∧
    planetA.calculateSunForce sunA =
      (Vec3.subVectors sunA.position planetA.position).normalize.multiplyScalar 0.001 := by
  have hd : sunA.position.distanceTo planetA.position
      = 1 + (1 - planetA.calculatePreferredCompatibility sunA) * 3 := by
    norm_num [Vec3.distanceTo, sunA, planetA, Node.calculatePreferredCompatibility,
      diffSum, Real.sqrt_one]
  exact ⟨hd, sunForce_at_desiredDistance planetA sunA hd⟩

/-- C7: the peer-attraction force on a non-sun body is the sum, over all
other non-sun bodies, of `normalize(o.pos − b.pos)` scaled by
`attractionConstant · attributeCompatibility(b,o) − smallOffset`
(`0.001·c − 0.001`), and this magnitude is net-negative (repulsive) for a
concrete low-compatibility pair. -/
theorem planetAttraction_spec (b : Node) (i : ℕ) (nodes : List Node)
    (hb : b.isSun = false) :
    b.calculatePlanetAttraction i nodes
      = vecListSum
          ((nodes.enum.filter fun o => decide (o.1 ≠ i ∧ o.2.isSun = false)).map
            fun o => (Vec3.subVectors o.2.position b.position).normalize.multiplyScalar
              (0.001 * b.calculateAttributeCompatibility o.2 - 0.001)) ∧
    0.001 * planetP.calculateAttributeCompatibility planetQ - 0.001 < 0 := by
  constructor
  · exact (planetAttraction_foldl b i nodes.enum Vec3.zero).trans (Vec3.zero_add _)
  · norm_num [Node.calculateAttributeCompatibility, diffSum, planetP, planetQ,
      abs_of_nonpos]

/-- Witness for C7 with `planetP` among `[planetP, planetQ]`. -/
theorem planetAttraction_spec_witness :
    planetP.isSun = false ∧
    (planetP.calculatePlanetAttraction 0 [planetP, planetQ]
      = vecListSum
          (([planetP, planetQ].enum.filter
              fun o => decide (o.1 ≠ 0 ∧ o.2.isSun = false)).map
            fun o => (Vec3.subVectors o.2.position planetP.position).normalize.multiplyScalar
              (0.001 * planetP.calculateAttributeCompatibility o.2 - 0.001)) ∧
    0.001 * planetP.calculateAttributeCompatibility planetQ - 0.001 < 0) :=
  ⟨rfl, planetAttraction_spec planetP 0 [planetP, planetQ] rfl⟩

/-- C2: a non-sun, non-swapping body's update multiplies the summed total
force by `velocityDamping`, adds it to velocity, clamps the result to
`maxVelocity` preserving direction, multiplies by `velocityDamping` again,
and adds the final velocity to the position. -/
theorem update_integration_spec (nodes : List Node) (i : ℕ) (b sun : Node) (now : ℝ)
    (F v1 v2 v3 : Vec3)
    (hswap : b.swap = none) (hsun : b.isSun = false)
    (hfind : nodes.find? (fun n => n.isSun) = some sun)
    (hF : F = (((Vec3.zero.add (b.calculateSunForce sun)).add
        (b.calculatePlanetRepulsion i nodes)).add
        (b.calculatePlanetAttraction i nodes)).multiplyScalar b.options.velocityDamping)
    (hv1 : v1 = b.velocity.add F)
    (hv2 : v2 = if v1.length > b.options.maxVelocity
        then v1.setLength b.options.maxVelocity else v1)
    (hv3 : v3 = v2.multiplyScalar b.options.velocityDamping) :
    (b.update i nodes now).velocity = v3 ∧
    (b.update i nodes now).position = b.position.add v3 ∧
    (v1.length > b.options.maxVelocity → 0 ≤ b.options.maxVelocity →
      v2.length = b.options.maxVelocity ∧ ∃ t : ℝ, 0 ≤ t ∧ v2 = v1.multiplyScalar t) := by
  have hred : b.update i nodes now
      = b.applyForces ((((Vec3.zero.add (b.calculateSunForce sun)).add
          (b.calculatePlanetRepulsion i nodes)).add
          (b.calculatePlanetAttraction i nodes)).multiplyScalar b.options.velocityDamping) := by
    simp only [Node.update, hswap, hsun, hfind, Option.isSome_none, Bool.false_eq_true,
      if_false]
  refine ⟨?_, ?_, ?_⟩
  · subst hF hv1 hv2 hv3; rw [hred]; rfl
  · subst hF hv1 hv2 hv3; rw [hred]; rfl
  · intro hlt hm
    have hne : v1.length ≠ 0 := (hm.trans_lt hlt).ne'
    rw [hv2, if_pos hlt]
    refine ⟨?_, (1 / v1.length) * b.options.maxVelocity,
      mul_nonneg (one_div_nonneg.mpr (Vec3.length_nonneg v1)) hm, ?_⟩
    · rw [Vec3.length_setLength hne, abs_of_nonneg hm]
    · unfold Vec3.setLength
      rw [Vec3.normalize_of_length_ne_zero hne, Vec3.multiplyScalar_multiplyScalar]

/-- Witness for C2: `planetA` updated against the singleton cluster `[sunA]`. -/
theorem update_integration_spec_witness :
    planetA.swap = none ∧ planetA.isSun = false ∧
    [sunA].find? (fun n => n.isSun) = some sunA ∧
    ((planetA.update 1 [sunA] 0).velocity
        = ((if (planetA.velocity.add
              ((((Vec3.zero.add (planetA.calculateSunForce sunA)).add
                (planetA.calculatePlanetRepulsion 1 [sunA])).add
                (planetA.calculatePlanetAttraction 1 [sunA])).multiplyScalar
                  planetA.options.velocityDamping)).length > planetA.options.maxVelocity
            then (planetA.velocity.add
              ((((Vec3.zero.add (planetA.calculateSunForce sunA)).add
                (planetA.calculatePlanetRepulsion 1 [sunA])).add
                (planetA.calculatePlanetAttraction 1 [sunA])).multiplyScalar
                  planetA.options.velocityDamping)).setLength planetA.options.maxVelocity
            else (planetA.velocity.add
              ((((Vec3.zero.add (planetA.calculateSunForce sunA)).add
                (planetA.calculatePlanetRepulsion 1 [sunA])).add
                (planetA.calculatePlanetAttraction 1 [sunA])).multiplyScalar
                  planetA.options.velocityDamping))).multiplyScalar
            planetA.options.velocityDamping) ∧
    (planetA.update 1 [sunA] 0).position
        = planetA.position.add
          ((if (planetA.velocity.add
              ((((Vec3.zero.add (planetA.calculateSunForce sunA)).add
                (planetA.calculatePlanetRepulsion 1 [sunA])).add
                (planetA.calculatePlanetAttraction 1 [sunA])).multiplyScalar
                  planetA.options.velocityDamping)).length > planetA.options.maxVelocity
            then (planetA.velocity.add
              ((((Vec3.zero.add (planetA.calculateSunForce sunA)).add
                (planetA.calculatePlanetRepulsion 1 [sunA])).add
                (planetA.calculatePlanetAttraction 1 [sunA])).multiplyScalar
                  planetA.options.velocityDamping)).setLength planetA.options.maxVelocity
            else (planetA.velocity.add
              ((((Vec3.zero.add (planetA.calculateSunForce sunA)).add
                (planetA.calculatePlanetRepulsion 1 [sunA])).add
                (planetA.calculatePlanetAttraction 1 [sunA])).multiplyScalar
                  planetA.options.velocityDamping))).multiplyScalar
            planetA.options.velocityDamping) ∧
    ((planetA.velocity.add
          ((((Vec3.zero.add (planetA.calculateSunForce sunA)).add
            (planetA.calculatePlanetRepulsion 1 [sunA])).add
            (planetA.calculatePlanetAttraction 1 [sunA])).multiplyScalar
              planetA.options.velocityDamping)).length > planetA.options.maxVelocity →
      0 ≤ planetA.options.maxVelocity →
      (if (planetA.velocity.add
              ((((Vec3.zero.add (planetA.calculateSunForce sunA)).add
                (planetA.calculatePlanetRepulsion 1 [sunA])).add
                (planetA.calculatePlanetAttraction 1 [sunA])).multiplyScalar
                  planetA.options.velocityDamping)).length > planetA.options.maxVelocity
          then (planetA.velocity.add
              ((((Vec3.zero.add (planetA.calculateSunForce sunA)).add
                (planetA.calculatePlanetRepulsion 1 [sunA])).add
                (planetA.calculatePlanetAttraction 1 [sunA])).multiplyScalar
                  planetA.options.velocityDamping)).setLength planetA.options.maxVelocity
          else (planetA.velocity.add
              ((((Vec3.zero.add (planetA.calculateSunForce sunA)).add
                (planetA.calculatePlanetRepulsion 1 [sunA])).add
                (planetA.calculatePlanetAttraction 1 [sunA])).multiplyScalar
                  planetA.options.velocityDamping))).length = planetA.options.maxVelocity ∧
      ∃ t : ℝ, 0 ≤ t ∧
        (if (planetA.velocity.add
              ((((Vec3.zero.add (planetA.calculateSunForce sunA)).add
                (planetA.calculatePlanetRepulsion 1 [sunA])).add
                (planetA.calculatePlanetAttraction 1 [sunA])).multiplyScalar
                  planetA.options.velocityDamping)).length > planetA.options.maxVelocity
          then (planetA.velocity.add
              ((((Vec3.zero.add (planetA.calculateSunForce sunA)).add
                (planetA.calculatePlanetRepulsion 1 [sunA])).add
                (planetA.calculatePlanetAttraction 1 [sunA])).multiplyScalar
                  planetA.options.velocityDamping)).setLength planetA.options.maxVelocity
          else (planetA.velocity.add
              ((((Vec3.zero.add (planetA.calculateSunForce sunA)).add
                (planetA.calculatePlanetRepulsion 1 [sunA])).add
                (planetA.calculatePlanetAttraction 1 [sunA])).multiplyScalar
                  planetA.options.velocityDamping)))
          = (planetA.velocity.add
              ((((Vec3.zero.add (planetA.calculateSunForce sunA)).add
                (planetA.calculatePlanetRepulsion 1 [sunA])).add
                (planetA.calculatePlanetAttraction 1 [sunA])).multiplyScalar
                  planetA.options.velocityDamping)).multiplyScalar t)) :=
  ⟨rfl, rfl, rfl,
    update_integration_spec [sunA] 1 planetA sunA 0 _ _ _ _ rfl rfl rfl rfl rfl rfl rfl⟩

/-- C3: while a swap is active an update plays the animation instead of the
force model: at `now = startTime` the position is `start`; once
`progress ≥ 1` the position snaps to `end`, the velocity is zeroed and
`swap` is cleared; for `progress ∈ [0,1)` the position is the unclamped
lerp and velocity and swap are untouched. -/
theorem swapAnimation_spec (nodes : List Node) (i : ℕ) (b : Node) (sw : ISwapAnimation)
    (now : ℝ) (hswap : b.swap = some sw) :
    (now = sw.startTime → 0 < sw.duration → (b.update i nodes now).position = sw.start) ∧
    ((now - sw.startTime) / sw.duration ≥ 1 →
      (b.update i nodes now).position = sw.endP ∧
      (b.update i nodes now).velocity = ⟨0, 0, 0⟩ ∧
      (b.update i nodes now).swap = none) ∧
    (0 ≤ (now - sw.startTime) / sw.duration → (now - sw.startTime) / sw.duration < 1 →
      (b.update i nodes now).position
          = sw.start.lerp sw.endP ((now - sw.startTime) / sw.duration) ∧
      (b.update i nodes now).velocity = b.velocity ∧
      (b.update i nodes now).swap = b.swap) := by
  have hred : b.update i nodes now = b.handleSwapAnimation now := by
    simp only [Node.update, hswap, Option.isSome_some, if_true]
  have hsa : b.handleSwapAnimation now =
      if (now - sw.startTime) / sw.duration ≥ 1 then
        { b with velocity := ⟨0, 0, 0⟩, swap := none,
                 position := sw.start.lerp sw.endP 1 }
      else
        { b with position := sw.start.lerp sw.endP ((now - sw.startTime) / sw.duration) } := by
    simp only [Node.handleSwapAnimation, hswap]
  refine ⟨?_, ?_, ?_⟩
  · intro h1 _
    subst h1
    have hz : (sw.startTime - sw.startTime) / sw.duration = 0 := by
      rw [sub_self, zero_div]
    rw [hred, hsa, hz, if_neg (by norm_num)]
    exact Vec3.lerp_zero sw.start sw.endP
  · intro h
    rw [hred, hsa, if_pos h]
    exact ⟨Vec3.lerp_one sw.start sw.endP, rfl, rfl⟩
  · intro _ h1
    rw [hred, hsa, if_neg (not_le.mpr h1), hswap]
    exact ⟨rfl, rfl, rfl⟩

/-- Witness for C3 at `swappingNode` (swap start time 1000), updated at
`now = 1000`. -/
theorem swapAnimation_spec_witness :
    swappingNode.swap = some swapW ∧
    (((1000:ℝ) = swapW.startTime → 0 < swapW.duration →
      (swappingNode.update 0 [] 1000).position = swapW.start) ∧
    (((1000:ℝ) - swapW.startTime) / swapW.duration ≥ 1 →
      (swappingNode.update 0 [] 1000).position = swapW.endP ∧
      (swappingNode.update 0 [] 1000).velocity = ⟨0, 0, 0⟩ ∧
      (swappingNode.update 0 [] 1000).swap = none) ∧
    (0 ≤ ((1000:ℝ) - swapW.startTime) / swapW.duration →
      ((1000:ℝ) - swapW.startTime) / swapW.duration < 1 →
      (swappingNode.update 0 [] 1000).position
          = swapW.start.lerp swapW.endP (((1000:ℝ) - swapW.startTime) / swapW.duration) ∧
      (swappingNode.update 0 [] 1000).velocity = swappingNode.velocity ∧
      (swappingNode.update 0 [] 1000).swap = swappingNode.swap)) :=
  ⟨rfl, swapAnimation_spec [] 0 swappingNode swapW 1000 rfl⟩

/-- Any non-sun, non-swapping update is an `applyForces` step for some
total force. -/
theorem update_eq_applyForces (nodes : List Node) (i : ℕ) (b : Node) (now : ℝ)
    (hswap : b.swap = none) (hsun : b.isSun = false) :
    ∃ f : Vec3, b.update i nodes now = b.applyForces f := by
  cases hfind : nodes.find? (fun n => n.isSun) with
  | none =>
      refine ⟨((Vec3.zero.add (b.calculatePlanetRepulsion i nodes)).add
        (b.calculatePlanetAttraction i nodes)).multiplyScalar b.options.velocityDamping, ?_⟩
      simp only [Node.update, hswap, hsun, hfind, Option.isSome_none,
        Bool.false_eq_true, if_false]
  | some sun =>
      refine ⟨(((Vec3.zero.add (b.calculateSunForce sun)).add
        (b.calculatePlanetRepulsion i nodes)).add
        (b.calculatePlanetAttraction i nodes)).multiplyScalar b.options.velocityDamping, ?_⟩
      simp only [Node.update, hswap, hsun, hfind, Option.isSome_none,
        Bool.false_eq_true, if_false]

/-- After `applyForces`, the speed is at most `maxVelocity * velocityDamping`
(hence at most `maxVelocity` for damping in `(0,1]`), whatever the force. -/
theorem applyForces_speed (b : Node) (f : Vec3)
    (hd0 : 0 < b.options.velocityDamping) (hd1 : b.options.velocityDamping ≤ 1)
    (hm : 0 ≤ b.options.maxVelocity) :
    (b.applyForces f).velocity.length
        ≤ b.options.maxVelocity * b.options.velocityDamping ∧
    (b.applyForces f).velocity.length ≤ b.options.maxVelocity := by
  have hvel : (b.applyForces f).velocity
      = (if (b.velocity.add f).length > b.options.maxVelocity
          then (b.velocity.add f).setLength b.options.maxVelocity
          else b.velocity.add f).multiplyScalar b.options.velocityDamping := rfl
  have key : (b.applyForces f).velocity.length
      ≤ b.options.maxVelocity * b.options.velocityDamping := by
    rw [hvel, Vec3.length_multiplyScalar, abs_of_pos hd0]
    split_ifs with h
    · have hne : (b.velocity.add f).length ≠ 0 := (hm.trans_lt h).ne'
      rw [Vec3.length_setLength hne, abs_of_nonneg hm]
      exact le_of_eq (mul_comm _ _)
    · calc b.options.velocityDamping * (b.velocity.add f).length
          ≤ b.options.velocityDamping * b.options.maxVelocity :=
            mul_le_mul_of_nonneg_left (not_lt.mp h) hd0.le
        _ = b.options.maxVelocity * b.options.velocityDamping := mul_comm _ _
  exact ⟨key, key.trans (mul_le_of_le_one_right hm hd1)⟩

/-- C10: after any non-swapping update of a non-sun body, the speed is at
most `maxVelocity * velocityDamping`, and in particular at most
`maxVelocity`, for any damping in `(0,1]` and `maxVelocity ≥ 0`. -/
theorem update_speed_bound (nodes : List Node) (i : ℕ) (b : Node) (now : ℝ)
    (hswap : b.swap = none) (hsun : b.isSun = false)
    (hd0 : 0 < b.options.velocityDamping) (hd1 : b.options.velocityDamping ≤ 1)
    (hm : 0 ≤ b.options.maxVelocity) :
    (b.update i nodes now).velocity.length
        ≤ b.options.maxVelocity * b.options.velocityDamping ∧
    (b.update i nodes now).velocity.length ≤ b.options.maxVelocity := by
  obtain ⟨f, hf⟩ := update_eq_applyForces nodes i b now hswap hsun
  rw [hf]
  exact applyForces_speed b f hd0 hd1 hm

/-- Witness for C10 at `planetA` (damping 0.8, maxVelocity 0.02). -/
theorem update_speed_bound_witness :
    planetA.swap = none ∧ planetA.isSun = false ∧
    0 < planetA.options.velocityDamping ∧ planetA.options.velocityDamping ≤ 1 ∧
    0 ≤ planetA.options.maxVelocity ∧
    ((planetA.update 0 [] 0).velocity.length
        ≤ planetA.options.maxVelocity * planetA.options.velocityDamping ∧
     (planetA.update 0 [] 0).velocity.length ≤ planetA.options.maxVelocity) :=
  ⟨rfl, rfl, by norm_num [planetA, defaultConfigs], by norm_num [planetA, defaultConfigs],
    by norm_num [planetA, defaultConfigs],
    update_speed_bound [] 0 planetA 0 rfl rfl
      (by norm_num [planetA, defaultConfigs]) (by norm_num [planetA, defaultConfigs])
      (by norm_num [planetA, defaultConfigs])⟩

/-- C9: `removeNode` with the sun selected is a no-op (the live collection
is unchanged and keeps its single sun); with a non-sun node selected,
exactly that node is removed. -/
theorem removeNode_spec (nodes : List Node) (i : ℕ) (sel : Node)
    (hsel : nodes[i]? = some sel) :
    (sel.isSun = true →
      removeNode nodes (some i) = nodes ∧
      (countSuns nodes = 1 → countSuns (removeNode nodes (some i)) = 1)) ∧
    (sel.isSun = false →
      removeNode nodes (some i) = nodes.eraseIdx i ∧
      (removeNode nodes (some i)).length + 1 = nodes.length) := by
  constructor
  · intro hsun
    have h : removeNode nodes (some i) = nodes := by
      simp only [removeNode, hsel, hsun, if_true]
    exact ⟨h, fun hc => by rw [h]; exact hc⟩
  · intro hsun
    have h : removeNode nodes (some i) = nodes.eraseIdx i := by
      simp only [removeNode, hsel, hsun, Bool.false_eq_true, if_false]
    have hlt : i < nodes.length := by
      rcases List.getElem?_eq_some.mp hsel with ⟨hlt, _⟩
      exact hlt
    refine ⟨h, ?_⟩
    rw [h]
    exact List.length_eraseIdx_add_one hlt

/-- Witness for C9 at the cluster `[sunA, planetA]` with the sun selected. -/
theorem removeNode_spec_witness :
    [sunA, planetA][0]? = some sunA ∧
    ((sunA.isSun = true →
      removeNode [sunA, planetA] (some 0) = [sunA, planetA] ∧
      (countSuns [sunA, planetA] = 1 → countSuns (removeNode [sunA, planetA] (some 0)) = 1)) ∧
    (sunA.isSun = false →
      removeNode [sunA, planetA] (some 0) = [sunA, planetA].eraseIdx 0 ∧
      (removeNode [sunA, planetA] (some 0)).length + 1 = [sunA, planetA].length)) :=
  ⟨rfl, removeNode_spec [sunA, planetA] 0 sunA rfl⟩

/-- C4: the sun handoff is a no-op when nothing is selected, no sun exists,
or the selected node is the current sun; otherwise it immediately flips
both `isSun` flags and gives both bodies 5000 ms swaps: the incoming sun
travels from its old position to the origin, the outgoing sun from its old
position to the incoming sun's pre-handoff position. -/
theorem onSetAsSun_spec (nodes ns : List Node) (i j k : ℕ)
    (newCentral oldCentral : Node) (now : ℝ)
    (hnew : nodes[i]? = some newCentral)
    (hfind : nodes.findIdx? (fun n => n.isSun) = some j)
    (hold : nodes[j]? = some oldCentral)
    (hne : i ≠ j)
    (hns : ns.findIdx? (fun n => n.isSun) = none) :
    onSetAsSun nodes none now = nodes ∧
    onSetAsSun ns (some k) now = ns ∧
    onSetAsSun nodes (some j) now = nodes ∧
    onSetAsSun nodes (some i) now =
      (nodes.set i
        { newCentral with
            isSun := true
            preference := 5
            swap := some ⟨newCentral.position, ⟨0, 0, 0⟩, now, 5000⟩ }).set j
        { oldCentral with
            isSun := false
            swap := some ⟨oldCentral.position, newCentral.position, now, 5000⟩ } := by
  refine ⟨rfl, ?_, ?_, ?_⟩
  · cases hk : ns[k]? with
    | none => simp only [onSetAsSun, hk]
    | some nc => simp only [onSetAsSun, hk, hns]
  · simp only [onSetAsSun, hold, hfind, if_true]
  · simp only [onSetAsSun, hnew, hfind, hold, if_neg hne, Node.setSun]

/-- Witness for C4: the cluster `[sunA, planetA]` with `planetA` (index 1)
promoted, and the sunless cluster `[planetA]` for the missing-sun no-op. -/
theorem onSetAsSun_spec_witness :
    [sunA, planetA][1]? = some planetA ∧
    [sunA, planetA].findIdx? (fun n => n.isSun) = some 0 ∧
    [sunA, planetA][0]? = some sunA ∧
    (1 : ℕ) ≠ 0 ∧
    [planetA].findIdx? (fun n => n.isSun) = none ∧
    (onSetAsSun [sunA, planetA] none 0 = [sunA, planetA] ∧
    onSetAsSun [planetA] (some 0) 0 = [planetA] ∧
    onSetAsSun [sunA, planetA] (some 0) 0 = [sunA, planetA] ∧
    onSetAsSun [sunA, planetA] (some 1) 0 =
      ([sunA, planetA].set 1
        { planetA with
            isSun := true
            preference := 5
            swap := some ⟨planetA.position, ⟨0, 0, 0⟩, 0, 5000⟩ }).set 0
        { sunA with
            isSun := false
            swap := some ⟨sunA.position, planetA.position, 0, 5000⟩ }) :=
  ⟨rfl, rfl, rfl, by decide, rfl,
    onSetAsSun_spec [sunA, planetA] [planetA] 1 0 0 planetA sunA 0 rfl rfl rfl
      (by decide) rfl⟩

end TraitVisual
